import Mathlib

/-!
Shallow embedding of the metrics reshaping and comparative-aggregation engine
of src/app.py (Facebook-vs-AdWords dashboard).

Modelling choices:
* a wide CSV row (one per campaign date) is a CampaignRecord; dates are
  integers under the chronological order, count columns (views, clicks,
  conversions) are integers, rate and cost columns are rationals;
* a pandas DataFrame of long-format rows is a List Observation;
* a pandas Series produced by groupby(platform) is a function
  String to Option value: none when the platform has no rows (key absent
  from the grouped index), matching Series.get with a default;
* Python string comparison is the code-point lexicographic order, written
  out as an executable boolean function;
* numpy / pandas rounding is round-half-to-even, modelled exactly on
  rationals;
* the column selection df[[cols]] raises when a column is absent; the raw
  table before selection is modelled as a RawFrame carrying its column list,
  and the selection returns Except, with the error called SchemaError as the
  specification names it.
-/

/-- One wide row of the input table, fields in the column order selected at
src/app.py lines 24-40. -/
structure CampaignRecord where
  date_of_campaign : Int
  facebook_ad_views : Int
  facebook_ad_clicks : Int
  facebook_ad_conversions : Int
  facebook_cost_per_ad : Rat
  facebook_ctr : Rat
  facebook_conversion_rate : Rat
  facebook_cost_per_click : Rat
  adword_ad_views : Int
  adword_ad_clicks : Int
  adword_ad_conversions : Int
  adword_cost_per_ad : Rat
  adword_ctr : Rat
  adword_conversion_rate : Rat
  adword_cost_per_click : Rat
deriving DecidableEq

/-- One long-format row, fields in the renamed column order of
src/app.py lines 30-33 (platform appended last). -/
structure Observation where
  date : Int
  views : Int
  clicks : Int
  conversions : Int
  cost_per_ad : Rat
  ctr : Rat
  conversion_rate : Rat
  cost_per_click : Rat
  platform : String
deriving DecidableEq

/-- src/app.py lines 24-33: the facebook slice of one record, renamed to the
shared schema and tagged with its platform. -/
def facebook (r : CampaignRecord) : Observation where
  date := r.date_of_campaign
  views := r.facebook_ad_views
  clicks := r.facebook_ad_clicks
  conversions := r.facebook_ad_conversions
  cost_per_ad := r.facebook_cost_per_ad
  ctr := r.facebook_ctr
  conversion_rate := r.facebook_conversion_rate
  cost_per_click := r.facebook_cost_per_click
  platform := "Facebook"

/-- src/app.py lines 36-42: the adwords slice of one record. -/
def adwords (r : CampaignRecord) : Observation where
  date := r.date_of_campaign
  views := r.adword_ad_views
  clicks := r.adword_ad_clicks
  conversions := r.adword_ad_conversions
  cost_per_ad := r.adword_cost_per_ad
  ctr := r.adword_ctr
  conversion_rate := r.adword_conversion_rate
  cost_per_click := r.adword_cost_per_click
  platform := "AdWords"

/-- src/app.py line 45: pd.concat of the facebook rows then the adwords rows. -/
def df_long (df : List CampaignRecord) : List Observation :=
  df.map facebook ++ df.map adwords

/-- The rows of one platform group of groupby(platform). -/
def platformRows (data : List Observation) (p : String) : List Observation :=
  data.filter (fun o => o.platform == p)

/-- A groupby(platform)[col].sum() Series over an integer column: defined
exactly at the platforms that have rows. -/
def groupbySum (data : List Observation) (f : Observation → Int)
    (p : String) : Option Int :=
  if platformRows data p = [] then none
  else some (((platformRows data p).map f).sum)

/-- A groupby(platform)[col].mean() Series over a rational column. -/
def groupbyMean (data : List Observation) (f : Observation → Rat)
    (p : String) : Option Rat :=
  if platformRows data p = [] then none
  else some ((((platformRows data p).map f).sum) / ((platformRows data p).length : Rat))

/-- Round a rational to the nearest integer, ties to even (numpy rounding). -/
def roundHalfEven (q : Rat) : Int :=
  if q - (⌊q⌋ : Rat) < 1 / 2 then ⌊q⌋
  else if (1 : Rat) / 2 < q - (⌊q⌋ : Rat) then ⌊q⌋ + 1
  else if ⌊q⌋ % 2 = 0 then ⌊q⌋ else ⌊q⌋ + 1

/-- The pandas round(2) applied to the mean columns. -/
def round2 (q : Rat) : Rat := ((roundHalfEven (q * 100) : Int) : Rat) / 100

/-- src/app.py lines 114-118: the boolean-mask filter on date range and
platform membership. -/
def filtered_data (data : List Observation) (start_date end_date : Int)
    (platform_options : List String) : List Observation :=
  data.filter (fun o =>
    decide (start_date ≤ o.date) && decide (o.date ≤ end_date)
      && platform_options.contains o.platform)

/-- src/app.py line 134. -/
def total_views (data : List Observation) (p : String) : Option Int :=
  groupbySum data (fun o => o.views) p

/-- src/app.py line 135. -/
def total_clicks (data : List Observation) (p : String) : Option Int :=
  groupbySum data (fun o => o.clicks) p

/-- src/app.py line 136. -/
def total_conversions (data : List Observation) (p : String) : Option Int :=
  groupbySum data (fun o => o.conversions) p

/-- src/app.py line 137. -/
def avg_ctr (data : List Observation) (p : String) : Option Rat :=
  (groupbyMean data (fun o => o.ctr) p).map round2

/-- src/app.py line 138. -/
def avg_conversion_rate (data : List Observation) (p : String) : Option Rat :=
  (groupbyMean data (fun o => o.conversion_rate) p).map round2

/-- src/app.py line 139. -/
def avg_cost_per_click (data : List Observation) (p : String) : Option Rat :=
  (groupbyMean data (fun o => o.cost_per_click) p).map round2

/-- Python one-decimal float formatting of a rational (the .1f conversion),
rounding half to even. All uses in the dashboard are on nonnegative values. -/
def fmt1 (q : Rat) : String :=
  if roundHalfEven (q * 10) < 0 then
    "-" ++ toString ((-(roundHalfEven (q * 10))) / 10) ++ "."
      ++ toString ((-(roundHalfEven (q * 10))) % 10)
  else
    toString (roundHalfEven (q * 10) / 10) ++ "."
      ++ toString (roundHalfEven (q * 10) % 10)

/-- src/app.py lines 142-147: human-readable count abbreviation. -/
def format_num (n : Int) : String :=
  if 1000000 ≤ n then fmt1 ((n : Rat) / 1000000) ++ "M"
  else if 1000 ≤ n then fmt1 ((n : Rat) / 1000) ++ "K"
  else toString n

/-- Lexicographic comparison of code-point lists: the order Python uses to
compare two strings. -/
def lexLtb : List Char → List Char → Bool
  | [], [] => false
  | [], _ :: _ => true
  | _ :: _, [] => false
  | a :: as, b :: bs => if a < b then true else if b < a then false else lexLtb as bs

/-- Python string comparison a less-than b (code-point lexicographic order). -/
def pyStrLt (a b : String) : Bool := lexLtb a.data b.data

/-- src/app.py lines 155-166: the comparison of two already formatted display
strings; the winner of a metric is marked with the literal byte sequence the
source file carries after the value. The tests are Python string comparisons
of the two arguments. -/
def highlight_metric (fb_val aw_val : String) (metric_type : String) : String :=
  if metric_type = "higher_better" then
    if pyStrLt aw_val fb_val then "**FB: " ++ fb_val ++ " âœ…** | AW: " ++ aw_val
    else if pyStrLt fb_val aw_val then "FB: " ++ fb_val ++ " | **AW: " ++ aw_val ++ " âœ…**"
    else "FB: " ++ fb_val ++ " | AW: " ++ aw_val
  else if metric_type = "lower_better" then
    if pyStrLt fb_val aw_val then "**FB: " ++ fb_val ++ " âœ…** | AW: " ++ aw_val
    else "FB: " ++ fb_val ++ " | **AW: " ++ aw_val ++ " âœ…**"
  else "FB: " ++ fb_val ++ " | AW: " ++ aw_val

/-- src/app.py line 194: the overall verdict, from the rounded conversion-rate
means with the Series.get default of 0 for an absent platform. -/
def best_platform (data : List Observation) : String :=
  if (avg_conversion_rate data "AdWords").getD 0
      < (avg_conversion_rate data "Facebook").getD 0
  then "Facebook" else "AdWords"

/-- The column list of the facebook selection, src/app.py lines 24-28. -/
def fbCols : List String :=
  ["date_of_campaign", "facebook_ad_views", "facebook_ad_clicks",
   "facebook_ad_conversions", "facebook_cost_per_ad",
   "facebook_ctr", "facebook_conversion_rate", "facebook_cost_per_click"]

/-- The column list of the adwords selection, src/app.py lines 36-40. -/
def awCols : List String :=
  ["date_of_campaign", "adword_ad_views", "adword_ad_clicks",
   "adword_ad_conversions", "adword_cost_per_ad",
   "adword_ctr", "adword_conversion_rate", "adword_cost_per_click"]

/-- A raw table before column selection: its column list and its rows, a row
giving a value for every column name. -/
structure RawFrame where
  cols : List String
  rows : List (String → Rat)

/-- The pandas selection df[[cols]]: fails when any requested column is
missing from the frame; the error is the SchemaError of the specification. -/
def selectCols (t : RawFrame) (cs : List String) : Except String (List (List Rat)) :=
  if cs.all (fun c => t.cols.contains c) then
    Except.ok (t.rows.map (fun r => cs.map r))
  else Except.error "SchemaError"

/-- The reshape of a raw frame: both column selections of src/app.py
lines 24-40, the only fallible steps of the core. -/
def reshapeRaw (t : RawFrame) : Except String (List (List Rat) × List (List Rat)) :=
  match selectCols t fbCols with
  | Except.error e => Except.error e
  | Except.ok fb =>
    match selectCols t awCols with
    | Except.error e => Except.error e
    | Except.ok aw => Except.ok (fb, aw)

/-- A sample record whose two conversion rates tie at 5. -/
def rTie : CampaignRecord := ⟨1, 100, 10, 2, 5, 10, 5, 1, 80, 8, 2, 4, 10, 5, 2⟩

/-- A sample record with distinct conversion rates, used as a generic witness
input. -/
def rW : CampaignRecord := ⟨1, 100, 10, 2, 5, 10, 6, 1, 80, 8, 2, 4, 10, 5, 2⟩

/-- A sample record whose facebook views dwarf its adword views. -/
def rBig : CampaignRecord := ⟨1, 2000000, 0, 0, 0, 0, 0, 0, 900000, 0, 0, 0, 0, 0, 0⟩

/-- The filtered long data built from rBig over its own date. -/
def dataBig : List Observation :=
  filtered_data (df_long [rBig]) 1 1 ["Facebook", "AdWords"]

/-! ### Helper lemmas -/

/-- Rounding an integer-valued rational is the identity. -/
theorem roundHalfEven_intCast (n : Int) : roundHalfEven ((n : Int) : Rat) = n := by
  simp [roundHalfEven]

/-- round(2) of an integer-valued rational is the identity. -/
theorem round2_intCast (n : Int) : round2 ((n : Int) : Rat) = ((n : Int) : Rat) := by
  have h : ((n : Int) : Rat) * 100 = (((n * 100 : Int)) : Rat) := by push_cast; ring
  rw [round2, h, roundHalfEven_intCast]
  push_cast
  field_simp

/-- round(2) fixes any rational that is an integer. -/
theorem round2_intValued (q : Rat) (n : Int) (h : q = ((n : Int) : Rat)) :
    round2 q = q := by
  rw [h, round2_intCast]

/-- One-decimal formatting of a rational whose number of tenths is the
nonnegative integer t. -/
theorem fmt1_eq (q : Rat) (t : Int) (h : q * 10 = ((t : Int) : Rat)) (h0 : 0 ≤ t) :
    fmt1 q = toString (t / 10) ++ "." ++ toString (t % 10) := by
  rw [fmt1, h, roundHalfEven_intCast, if_neg (by omega)]

/-- The facebook half of the concatenation is exactly the Facebook group. -/
theorem platformRows_df_long_facebook (df : List CampaignRecord) :
    platformRows (df_long df) "Facebook" = df.map facebook := by
  unfold platformRows df_long
  rw [List.filter_append]
  have h1 : (df.map facebook).filter (fun o => o.platform == "Facebook")
      = df.map facebook := by
    apply List.filter_eq_self.mpr
    intro a ha
    obtain ⟨r, _, rfl⟩ := List.mem_map.1 ha
    rfl
  have h2 : (df.map adwords).filter (fun o => o.platform == "Facebook") = [] := by
    apply List.filter_eq_nil_iff.mpr
    intro a ha
    obtain ⟨r, _, rfl⟩ := List.mem_map.1 ha
    show ¬(("AdWords" : String) == "Facebook") = true
    decide
  rw [h1, h2, List.append_nil]

/-- The adwords half of the concatenation is exactly the AdWords group. -/
theorem platformRows_df_long_adwords (df : List CampaignRecord) :
    platformRows (df_long df) "AdWords" = df.map adwords := by
  unfold platformRows df_long
  rw [List.filter_append]
  have h1 : (df.map facebook).filter (fun o => o.platform == "AdWords") = [] := by
    apply List.filter_eq_nil_iff.mpr
    intro a ha
    obtain ⟨r, _, rfl⟩ := List.mem_map.1 ha
    show ¬(("Facebook" : String) == "AdWords") = true
    decide
  have h2 : (df.map adwords).filter (fun o => o.platform == "AdWords")
      = df.map adwords := by
    apply List.filter_eq_self.mpr
    intro a ha
    obtain ⟨r, _, rfl⟩ := List.mem_map.1 ha
    rfl
  rw [h1, h2, List.nil_append]

/-- Sum Series over a one-row group. -/
theorem groupbySum_single (data : List Observation) (p : String)
    (f : Observation → Int) (o : Observation) (h : platformRows data p = [o]) :
    groupbySum data f p = some (f o) := by
  simp [groupbySum, h]

/-- Mean Series over a one-row group. -/
theorem groupbyMean_single (data : List Observation) (p : String)
    (f : Observation → Rat) (o : Observation) (h : platformRows data p = [o]) :
    groupbyMean data f p = some (f o) := by
  simp [groupbyMean, h]

/-- The Python string order is irreflexive. -/
theorem lexLtb_self (l : List Char) : lexLtb l l = false := by
  induction l with
  | nil => rfl
  | cons a as ih => simp [lexLtb, ih]

/-- A string never compares strictly below itself. -/
theorem pyStrLt_self (v : String) : pyStrLt v v = false := lexLtb_self v.data

/-! ### Claim theorems -/

/-- C1 counterexample: on the concrete one-record input rTie the two rounded
mean conversion rates are exactly equal, yet best_platform returns AdWords,
not the Facebook default the claim states. -/
theorem best_platform_tie_cex :
    (avg_conversion_rate (df_long [rTie]) "Facebook").getD 0
      = (avg_conversion_rate (df_long [rTie]) "AdWords").getD 0
    ∧ best_platform (df_long [rTie]) ≠ "Facebook" := by
  have hF : platformRows (df_long [rTie]) "Facebook" = [facebook rTie] := rfl
  have hA : platformRows (df_long [rTie]) "AdWords" = [adwords rTie] := rfl
  have hMF : groupbyMean (df_long [rTie]) (fun o => o.conversion_rate) "Facebook"
      = some 5 :=
    groupbyMean_single _ _ _ _ hF
  have hMA : groupbyMean (df_long [rTie]) (fun o => o.conversion_rate) "AdWords"
      = some 5 :=
    groupbyMean_single _ _ _ _ hA
  have h5 : round2 (5 : Rat) = 5 := round2_intValued 5 5 (by norm_num)
  have hvF : (avg_conversion_rate (df_long [rTie]) "Facebook").getD 0 = 5 := by
    rw [avg_conversion_rate, hMF]
    simp [h5]
  have hvA : (avg_conversion_rate (df_long [rTie]) "AdWords").getD 0 = 5 := by
    rw [avg_conversion_rate, hMA]
    simp [h5]
  constructor
  · rw [hvF, hvA]
  · rw [best_platform, hvF, hvA]
    simp

/-- C1 (amended): best_platform returns Facebook exactly when the
Facebook rounded mean conversion rate (0 when the platform is absent) is
strictly greater than the AdWords one; in every other case, exact ties
included, it returns AdWords. -/
theorem best_platform_iff (data : List Observation) :
    (best_platform data = "Facebook"
      ↔ (avg_conversion_rate data "AdWords").getD 0
          < (avg_conversion_rate data "Facebook").getD 0)
    ∧ (best_platform data = "AdWords"
      ↔ ¬ (avg_conversion_rate data "AdWords").getD 0
          < (avg_conversion_rate data "Facebook").getD 0) := by
  unfold best_platform
  by_cases h : (avg_conversion_rate data "AdWords").getD 0
      < (avg_conversion_rate data "Facebook").getD 0
  · simp [h]
  · simp [h]

/-- C2 counterexample: for the lower-is-better metric, the concrete tie of
two equal formatted cost values is not a no-winner verdict: the AdWords side
is marked best. -/
theorem highlight_metric_tie_cex :
    highlight_metric "$0.5" "$0.5" "lower_better"
      = "FB: $0.5 | **AW: $0.5 âœ…**"
    ∧ highlight_metric "$0.5" "$0.5" "lower_better" ≠ "FB: $0.5 | AW: $0.5" := by
  constructor
  · decide
  · decide

/-- C2 (amended): on an exact tie of the two displayed values, the
higher-is-better comparison returns the no-winner verdict with both values
shown and neither platform marked, but the lower-is-better comparison falls
into its else branch and marks AdWords best. -/
theorem highlight_metric_tie_amended (v : String) :
    highlight_metric v v "higher_better" = "FB: " ++ v ++ " | AW: " ++ v
    ∧ highlight_metric v v "lower_better"
        = "FB: " ++ v ++ " | **AW: " ++ v ++ " âœ…**" := by
  have hlt : pyStrLt v v = false := pyStrLt_self v
  constructor
  · rw [highlight_metric, if_pos rfl, hlt, if_neg (by simp), if_neg (by simp)]
  · rw [highlight_metric, if_neg (by decide), if_pos rfl, hlt, if_neg (by simp)]

/-- C3: the reshape of N records has exactly 2N observations; its Facebook
group is, in input order, one observation per record built from the
facebook fields, and its AdWords group one observation per record built from
the adword fields, each carrying the record date under the shared schema. -/
theorem reshape_two_per_record (df : List CampaignRecord) :
    (df_long df).length = 2 * df.length
    ∧ platformRows (df_long df) "Facebook"
        = df.map (fun r =>
            (⟨r.date_of_campaign, r.facebook_ad_views, r.facebook_ad_clicks,
              r.facebook_ad_conversions, r.facebook_cost_per_ad, r.facebook_ctr,
              r.facebook_conversion_rate, r.facebook_cost_per_click,
              "Facebook"⟩ : Observation))
    ∧ platformRows (df_long df) "AdWords"
        = df.map (fun r =>
            (⟨r.date_of_campaign, r.adword_ad_views, r.adword_ad_clicks,
              r.adword_ad_conversions, r.adword_cost_per_ad, r.adword_ctr,
              r.adword_conversion_rate, r.adword_cost_per_click,
              "AdWords"⟩ : Observation)) := by
  refine ⟨?_, ?_, ?_⟩
  · simp [df_long]
    omega
  · exact platformRows_df_long_facebook df
  · exact platformRows_df_long_adwords df

/-- C4: over any non-empty input, the grouped sum of the views column equals
the sum of the original wide views column of the same platform. -/
theorem views_sum_roundtrip (df : List CampaignRecord) (h : df ≠ []) :
    groupbySum (df_long df) (fun o => o.views) "Facebook"
      = some ((df.map (fun r => r.facebook_ad_views)).sum)
    ∧ groupbySum (df_long df) (fun o => o.views) "AdWords"
      = some ((df.map (fun r => r.adword_ad_views)).sum) := by
  have hne1 : df.map facebook ≠ [] := by simpa using h
  have hne2 : df.map adwords ≠ [] := by simpa using h
  constructor
  · rw [groupbySum, platformRows_df_long_facebook, if_neg hne1, List.map_map]
    rfl
  · rw [groupbySum, platformRows_df_long_adwords, if_neg hne2, List.map_map]
    rfl

/-- C4 witness at the concrete one-record input rW. -/
theorem views_sum_roundtrip_witness :
    groupbySum (df_long [rW]) (fun o => o.views) "Facebook"
      = some (([rW].map (fun r => r.facebook_ad_views)).sum)
    ∧ groupbySum (df_long [rW]) (fun o => o.views) "AdWords"
      = some (([rW].map (fun r => r.adword_ad_views)).sum) :=
  views_sum_roundtrip [rW] (List.cons_ne_nil rW [])

/-- C5: the filter keeps exactly the observations of the data whose date lies
in the inclusive range and whose platform belongs to the selection. -/
theorem filtered_data_mem (data : List Observation) (s e : Int)
    (ps : List String) (o : Observation) :
    o ∈ filtered_data data s e ps
      ↔ o ∈ data ∧ s ≤ o.date ∧ o.date ≤ e ∧ o.platform ∈ ps := by
  simp [filtered_data, List.mem_filter, and_assoc]

/-- C6: reshaping succeeds exactly when every expected column of both
selections is present, and the one failure mode is the SchemaError raised
when some expected column is absent. -/
theorem reshape_schema_error (t : RawFrame) :
    ((∀ c ∈ fbCols ++ awCols, c ∈ t.cols) ↔ ∃ v, reshapeRaw t = Except.ok v)
    ∧ ((∃ c ∈ fbCols ++ awCols, c ∉ t.cols)
        ↔ reshapeRaw t = Except.error "SchemaError") := by
  have key : ∀ cs : List String,
      (cs.all (fun c => t.cols.contains c) = true) ↔ ∀ c ∈ cs, c ∈ t.cols := by
    intro cs
    simp [List.all_eq_true]
  by_cases hf : ∀ c ∈ fbCols, c ∈ t.cols
  · by_cases ha : ∀ c ∈ awCols, c ∈ t.cols
    · have e1 : selectCols t fbCols = Except.ok (t.rows.map (fun r => fbCols.map r)) := by
        rw [selectCols, if_pos ((key fbCols).mpr hf)]
      have e2 : selectCols t awCols = Except.ok (t.rows.map (fun r => awCols.map r)) := by
        rw [selectCols, if_pos ((key awCols).mpr ha)]
      have hok : reshapeRaw t
          = Except.ok (t.rows.map (fun r => fbCols.map r),
              t.rows.map (fun r => awCols.map r)) := by
        rw [reshapeRaw, e1, e2]
      constructor
      · constructor
        · intro _
          exact ⟨_, hok⟩
        · intro _ c hc
          rcases List.mem_append.1 hc with hm | hm
          · exact hf c hm
          · exact ha c hm
      · constructor
        · rintro ⟨c, hc, hnc⟩
          rcases List.mem_append.1 hc with hm | hm
          · exact absurd (hf c hm) hnc
          · exact absurd (ha c hm) hnc
        · intro hcontra
          rw [hok] at hcontra
          cases hcontra
    · have e1 : selectCols t fbCols = Except.ok (t.rows.map (fun r => fbCols.map r)) := by
        rw [selectCols, if_pos ((key fbCols).mpr hf)]
      have e2 : selectCols t awCols = Except.error "SchemaError" := by
        rw [selectCols, if_neg (fun hh => ha ((key awCols).mp hh))]
      have herr : reshapeRaw t = Except.error "SchemaError" := by
        rw [reshapeRaw, e1, e2]
      push_neg at ha
      obtain ⟨c, hc, hnc⟩ := ha
      constructor
      · constructor
        · intro hall
          exact absurd (hall c (List.mem_append.2 (Or.inr hc))) hnc
        · rintro ⟨v, hv⟩
          rw [herr] at hv
          cases hv
      · constructor
        · intro _
          exact herr
        · intro _
          exact ⟨c, List.mem_append.2 (Or.inr hc), hnc⟩
  · have e1 : selectCols t fbCols = Except.error "SchemaError" := by
      rw [selectCols, if_neg (fun hh => hf ((key fbCols).mp hh))]
    have herr : reshapeRaw t = Except.error "SchemaError" := by
      rw [reshapeRaw, e1]
    push_neg at hf
    obtain ⟨c, hc, hnc⟩ := hf
    constructor
    · constructor
      · intro hall
        exact absurd (hall c (List.mem_append.2 (Or.inl hc))) hnc
      · rintro ⟨v, hv⟩
        rw [herr] at hv
        cases hv
    · constructor
      · intro _
        exact herr
      · intro _
        exact ⟨c, List.mem_append.2 (Or.inl hc), hnc⟩

/-- C7: a platform with no rows after filtering is absent from every grouped
Series (none, not a zero row), and the display lookups substitute the
default 0 for both its sum and its rounded mean. -/
theorem missing_platform_defaults (data : List Observation) (p : String)
    (f : Observation → Int) (g : Observation → Rat)
    (h : platformRows data p = []) :
    groupbySum data f p = none
    ∧ groupbyMean data g p = none
    ∧ (groupbySum data f p).getD 0 = 0
    ∧ ((groupbyMean data g p).map round2).getD 0 = 0 := by
  refine ⟨?_, ?_, ?_, ?_⟩ <;> simp [groupbySum, groupbyMean, h]

/-- C7 witness: filtering the one-record input to the Facebook platform
leaves the AdWords group empty, so its Series entries are absent and the
displayed defaults are 0. -/
theorem missing_platform_defaults_witness :
    groupbySum (filtered_data (df_long [rW]) 1 1 ["Facebook"])
        (fun o => o.views) "AdWords" = none
    ∧ groupbyMean (filtered_data (df_long [rW]) 1 1 ["Facebook"])
        (fun o => o.ctr) "AdWords" = none
    ∧ (groupbySum (filtered_data (df_long [rW]) 1 1 ["Facebook"])
        (fun o => o.views) "AdWords").getD 0 = 0
    ∧ ((groupbyMean (filtered_data (df_long [rW]) 1 1 ["Facebook"])
        (fun o => o.ctr) "AdWords").map round2).getD 0 = 0 :=
  missing_platform_defaults _ _ _ _ rfl

/-- C8: format_num renders counts of a million and more as millions with one
decimal, counts of a thousand and more as thousands with one decimal, and
smaller counts literally; the three boundary examples evaluate as stated. -/
theorem format_num_spec (n : Int) :
    (1000000 ≤ n → format_num n = fmt1 ((n : Rat) / 1000000) ++ "M")
    ∧ (1000 ≤ n → n < 1000000 → format_num n = fmt1 ((n : Rat) / 1000) ++ "K")
    ∧ (n < 1000 → format_num n = toString n)
    ∧ format_num 999 = "999"
    ∧ format_num 1000 = "1.0K"
    ∧ format_num 1500000 = "1.5M" := by
  refine ⟨?_, ?_, ?_, ?_, ?_, ?_⟩
  · intro h1
    rw [format_num, if_pos h1]
  · intro h1 h2
    rw [format_num, if_neg (by omega), if_pos h1]
  · intro h1
    rw [format_num, if_neg (by omega), if_neg (by omega)]
  · rw [format_num, if_neg (by norm_num), if_neg (by norm_num)]
    rfl
  · rw [format_num, if_neg (by norm_num), if_pos (by norm_num),
      fmt1_eq _ 10 (by norm_num) (by norm_num)]
    rfl
  · rw [format_num, if_pos (by norm_num), fmt1_eq _ 15 (by norm_num) (by norm_num)]
    rfl

/-- C8 witness discharging each branch hypothesis at a concrete count. -/
theorem format_num_spec_witness :
    format_num 2500000 = fmt1 (((2500000 : Int) : Rat) / 1000000) ++ "M"
    ∧ format_num 5000 = fmt1 (((5000 : Int) : Rat) / 1000) ++ "K"
    ∧ format_num 7 = toString (7 : Int) :=
  ⟨(format_num_spec 2500000).1 (by norm_num),
   (format_num_spec 5000).2.1 (by norm_num) (by norm_num),
   (format_num_spec 7).2.2.1 (by norm_num)⟩

/-- C9: over the concrete filtered input dataBig, Facebook has the strictly
greater numeric view total, but the displayed comparison of the formatted
strings 2.0M and 900.0K marks AdWords best: the verdict follows the
lexicographic order of the display strings, not the numbers. -/
theorem display_best_is_lexicographic :
    (total_views dataBig "AdWords").getD 0 < (total_views dataBig "Facebook").getD 0
    ∧ format_num ((total_views dataBig "Facebook").getD 0) = "2.0M"
    ∧ format_num ((total_views dataBig "AdWords").getD 0) = "900.0K"
    ∧ highlight_metric (format_num ((total_views dataBig "Facebook").getD 0))
        (format_num ((total_views dataBig "AdWords").getD 0)) "higher_better"
      = "FB: 2.0M | **AW: 900.0K âœ…**" := by
  have hf : (total_views dataBig "Facebook").getD 0 = 2000000 := by rfl
  have ha : (total_views dataBig "AdWords").getD 0 = 900000 := by rfl
  have hff : format_num 2000000 = "2.0M" := by
    rw [format_num, if_pos (by norm_num), fmt1_eq _ 20 (by norm_num) (by norm_num)]
    rfl
  have hfa : format_num 900000 = "900.0K" := by
    rw [format_num, if_neg (by norm_num), if_pos (by norm_num),
      fmt1_eq _ 9000 (by norm_num) (by norm_num)]
    rfl
  refine ⟨?_, ?_, ?_, ?_⟩
  · rw [hf, ha]
    norm_num
  · rw [hf, hff]
  · rw [ha, hfa]
  · rw [hf, ha, hff, hfa]
    decide

/-- C10: when the filtered data has no Facebook rows and no AdWords rows,
both conversion-rate lookups fall back to the default 0 and best_platform
returns AdWords. -/
theorem empty_filter_best_platform (data : List Observation)
    (hf : platformRows data "Facebook" = [])
    (ha : platformRows data "AdWords" = []) :
    (avg_conversion_rate data "Facebook").getD 0 = 0
    ∧ (avg_conversion_rate data "AdWords").getD 0 = 0
    ∧ best_platform data = "AdWords" := by
  have h1 : avg_conversion_rate data "Facebook" = none := by
    simp [avg_conversion_rate, groupbyMean, hf]
  have h2 : avg_conversion_rate data "AdWords" = none := by
    simp [avg_conversion_rate, groupbyMean, ha]
  refine ⟨by simp [h1], by simp [h2], ?_⟩
  rw [best_platform, h1, h2]
  simp

/-- C10 witness: an empty platform selection empties both groups. -/
theorem empty_filter_best_platform_witness :
    (avg_conversion_rate (filtered_data (df_long [rW]) 1 1 []) "Facebook").getD 0 = 0
    ∧ (avg_conversion_rate (filtered_data (df_long [rW]) 1 1 []) "AdWords").getD 0 = 0
    ∧ best_platform (filtered_data (df_long [rW]) 1 1 []) = "AdWords" :=
  empty_filter_best_platform _ rfl rfl
